import Mathlib

/-!
Shallow embedding of the capture/mix/record core of the chrome-screen-recorder
extension (main controller: src/presentation/popup/popup.js), together with
proofs of the specified properties.

Modelling conventions:
- A MediaStreamTrack is a record of an identifier and a kind; track liveness
  (readyState live/ended) is tracked in a global registry of live track ids,
  so that stopping a track through any reference to it is observable.
- Open AudioContexts and active poll intervals are tracked as lists of ids.
- Asynchronous platform outcomes (getUserMedia, permissions.query, confirm,
  getDisplayMedia, MediaRecorder construction/start) are supplied by an
  environment record, one field per suspension point of the flow.
-/

namespace ScreenRecorder

/-- Kind of a MediaStreamTrack. -/
inductive TrackKind where
  | audio
  | video
deriving DecidableEq

/-- A MediaStreamTrack: an id plus its kind. Liveness is tracked externally. -/
structure Track where
  id : Nat
  kind : TrackKind
deriving DecidableEq

/-- A MediaStream object, including the ad hoc fields the source attaches to
stream objects: the audio mixing context reference stored by
createCombinedStreamUsingAudioContext, and the poll interval id stored
by attachDisplayEndHandlers. -/
structure StreamObj where
  tracks : List Track
  audioContext : Option Nat := none
  shareEndPollId : Option Nat := none
deriving DecidableEq

/-- stream.getAudioTracks() -/
def StreamObj.getAudioTracks (s : StreamObj) : List Track :=
  s.tracks.filter (fun t => t.kind == TrackKind.audio)

/-- stream.getVideoTracks() -/
def StreamObj.getVideoTracks (s : StreamObj) : List Track :=
  s.tracks.filter (fun t => t.kind == TrackKind.video)

/-- The ids of all tracks of a stream. -/
def StreamObj.trackIds (s : StreamObj) : List Nat :=
  s.tracks.map (fun t => t.id)

/-- The boolean test the source performs on the display stream:
displayStream.getAudioTracks().length > 0. -/
def StreamObj.hasAudio (s : StreamObj) : Bool :=
  decide (0 < s.getAudioTracks.length)

/-- The boolean test the source performs on the optional mic stream:
micStream && micStream.getAudioTracks && micStream.getAudioTracks().length > 0. -/
def optHasAudio : Option StreamObj → Bool
  | some m => m.hasAudio
  | none => false

/-! ## Audio mixing: createCombinedStreamUsingAudioContext (popup.js 246-311) -/

/-- Result of the mixer: the output stream plus observability flags for
whether the audio context was allocated and which sources were connected. -/
structure MixResult where
  out : StreamObj
  contextCreated : Bool
  displayConnected : Bool
  micConnected : Bool
deriving DecidableEq

/-- createCombinedStreamUsingAudioContext(displayStream, micStream).
Adds the first display video track to a fresh output stream; if neither
source has an audio track, returns the video-only stream without creating
an audio context.  Otherwise creates the context and destination, connects
each source that has audio tracks (connectAudioSource skips a stream with
no audio tracks), and adds the destination's single mixed audio track.
ctxId and mixedTrackId are the fresh ids the platform would allocate. -/
def createCombinedStreamUsingAudioContext (displayStream : StreamObj)
    (micStream : Option StreamObj) (ctxId mixedTrackId : Nat) : MixResult :=
  let outputStream : StreamObj := { tracks := [] }
  let outputStream :=
    match displayStream.getVideoTracks.head? with
    | some v => { outputStream with tracks := outputStream.tracks ++ [v] }
    | none => outputStream
  let hasDisplayAudio := displayStream.hasAudio
  let hasMicAudio := optHasAudio micStream
  if !hasDisplayAudio && !hasMicAudio then
    { out := outputStream, contextCreated := false,
      displayConnected := false, micConnected := false }
  else
    let mixedTrack : Track := { id := mixedTrackId, kind := TrackKind.audio }
    let outputStream :=
      { outputStream with tracks := outputStream.tracks ++ [mixedTrack],
                          audioContext := some ctxId }
    { out := outputStream, contextCreated := true,
      displayConnected := hasDisplayAudio, micConnected := hasMicAudio }

/-! ## Popup module state, stopAllTracks, and cleanupRecordingResources -/

/-- The module-level mutable state of popup.js, together with the registry
of platform resources: ids of live (not yet stopped) tracks, ids of open
AudioContexts, and ids of active poll intervals. -/
structure PopupState where
  combinedStream : Option StreamObj
  displayStream : Option StreamObj
  micStream : Option StreamObj
  openContexts : List Nat
  activeIntervals : List Nat
  liveTracks : List Nat
  previewAttached : Bool
deriving DecidableEq

/-- The state of the module at page load: all stream references null, no
platform resources held. -/
def initialState : PopupState :=
  { combinedStream := none, displayStream := none, micStream := none,
    openContexts := [], activeIntervals := [], liveTracks := [],
    previewAttached := false }

/-- Zero resources held: no stream references, no open mixing context, no
active poll interval, no live track. -/
def resourceFree (s : PopupState) : Prop :=
  s.combinedStream = none ∧ s.displayStream = none ∧ s.micStream = none ∧
  s.openContexts = [] ∧ s.activeIntervals = [] ∧ s.liveTracks = []

instance (s : PopupState) : Decidable (resourceFree s) := by
  unfold resourceFree
  infer_instance

/-- Removing a set of just-stopped track ids from the live registry. -/
def stopTrackIds (live : List Nat) (ids : List Nat) : List Nat :=
  live.filter (fun x => !(ids.contains x))

/-- stopAllTracks(stream): a null stream is a no-op; otherwise every track
of the stream is stopped (its id leaves the live registry). -/
def stopAllTracks (live : List Nat) : Option StreamObj → List Nat
  | none => live
  | some s => stopTrackIds live s.trackIds

/-- The track ids of an optional stream reference. -/
def optTrackIds : Option StreamObj → List Nat
  | none => []
  | some s => s.trackIds

/-- One observable step of teardown, in the order it is executed. -/
inductive StreamName where
  | combined
  | display
  | mic
deriving DecidableEq

/-- Observable teardown events emitted by cleanupRecordingResources. -/
inductive TDEvent where
  | closeContext (ctx : Nat)
  | stopTrack (which : StreamName) (tid : Nat)
  | clearPollInterval (i : Nat)
  | clearRefs
deriving DecidableEq

/-- The stop-events for every track of an optional stream. -/
def stopTracksEvents (which : StreamName) : Option StreamObj → List TDEvent
  | none => []
  | some s => s.tracks.map (fun t => TDEvent.stopTrack which t.id)

/-- cleanupRecordingResources() (popup.js 491-530), returning the new module
state and the trace of teardown events in execution order: close the
combined stream's audio context if present; stop the combined stream's
tracks; clear the display stream's share-end poll interval if present;
stop the display stream's tracks; stop the mic stream's tracks; null all
stream references and the preview. -/
def cleanupRecordingResources (s : PopupState) : PopupState × List TDEvent :=
  let ctxEvents : List TDEvent :=
    match s.combinedStream with
    | some c =>
      match c.audioContext with
      | some ctx => [TDEvent.closeContext ctx]
      | none => []
    | none => []
  let contexts : List Nat :=
    match s.combinedStream with
    | some c =>
      match c.audioContext with
      | some ctx => s.openContexts.filter (fun x => x != ctx)
      | none => s.openContexts
    | none => s.openContexts
  let live1 := stopAllTracks s.liveTracks s.combinedStream
  let combinedStops := stopTracksEvents StreamName.combined s.combinedStream
  let intEvents : List TDEvent :=
    match s.displayStream with
    | some d =>
      match d.shareEndPollId with
      | some i => [TDEvent.clearPollInterval i]
      | none => []
    | none => []
  let intervals : List Nat :=
    match s.displayStream with
    | some d =>
      match d.shareEndPollId with
      | some i => s.activeIntervals.filter (fun x => x != i)
      | none => s.activeIntervals
    | none => s.activeIntervals
  let live2 := stopAllTracks live1 s.displayStream
  let displayStops := stopTracksEvents StreamName.display s.displayStream
  let live3 := stopAllTracks live2 s.micStream
  let micStops := stopTracksEvents StreamName.mic s.micStream
  ({ combinedStream := none, displayStream := none, micStream := none,
     openContexts := contexts, activeIntervals := intervals,
     liveTracks := live3, previewAttached := false },
   ctxEvents ++ combinedStops ++ intEvents ++ displayStops ++ micStops ++ [TDEvent.clearRefs])

/-- Teardown phase of an event under the order §4.6 of the spec prescribes:
context closing, then all track stops, then interval clearing, then
reference clearing. -/
def specPhase : TDEvent → Nat
  | TDEvent.closeContext _ => 0
  | TDEvent.stopTrack _ _ => 1
  | TDEvent.clearPollInterval _ => 2
  | TDEvent.clearRefs => 3

/-- Teardown phase of an event under the order the code actually follows:
context closing, then combined-stream track stops, then interval
clearing, then display/mic track stops, then reference clearing. -/
def codePhase : TDEvent → Nat
  | TDEvent.closeContext _ => 0
  | TDEvent.stopTrack StreamName.combined _ => 1
  | TDEvent.clearPollInterval _ => 2
  | TDEvent.stopTrack StreamName.display _ => 3
  | TDEvent.stopTrack StreamName.mic _ => 3
  | TDEvent.clearRefs => 4

/-- A teardown trace respects the step order stated in the spec: no event
of an earlier spec phase ever follows an event of a later one. -/
def specOrdered (tr : List TDEvent) : Prop :=
  (tr.map specPhase).Pairwise (fun a b => a ≤ b)

/-- A teardown trace respects the step order the code follows. -/
def codeOrdered (tr : List TDEvent) : Prop :=
  (tr.map codePhase).Pairwise (fun a b => a ≤ b)

instance (tr : List TDEvent) : Decidable (specOrdered tr) := by
  unfold specOrdered
  infer_instance

instance (tr : List TDEvent) : Decidable (codeOrdered tr) := by
  unfold codeOrdered
  infer_instance

/-! ## MediaRecorder format negotiation: getSupportedMimeType (popup.js 167-188) -/

/-- The ordered preference list of the source. -/
def candidates : List String :=
  ["video/webm;codecs=vp9,opus", "video/webm;codecs=vp8,opus",
   "video/webm;codecs=vp9", "video/webm"]

/-- The loop body of getSupportedMimeType: first supported entry, else "". -/
def firstSupported (isTypeSupported : String → Bool) : List String → String
  | [] => ""
  | c :: rest => if isTypeSupported c then c else firstSupported isTypeSupported rest

/-- getSupportedMimeType(): probes the candidate list against the platform's
MediaRecorder.isTypeSupported and returns the first supported entry,
or the empty string when none is supported. -/
def getSupportedMimeType (isTypeSupported : String → Bool) : String :=
  firstSupported isTypeSupported candidates

/-! ## Permission checking and the start-recording flow (popup.js 540-748) -/

/-- The three states the Permissions API can report. -/
inductive PermState where
  | granted
  | denied
  | prompt
deriving DecidableEq

/-- checkMicPermissionState() (popup.js 198-211): returns null when the
Permissions API is unavailable or the query throws; otherwise the
reported state. -/
def checkMicPermissionState (permissionsAvailable : Bool)
    (permQueryResult : Option PermState) : Option PermState :=
  if !permissionsAvailable then none
  else permQueryResult

/-- A display-capture error: its name and message properties. -/
structure DisplayErr where
  name : String
  message : String
deriving DecidableEq

/-- Outcome of the getDisplayMedia call. -/
inductive DisplayOutcome where
  | ok (s : StreamObj)
  | err (e : DisplayErr)
deriving DecidableEq

/-- The environment of one run of startRecordingFlow: one field per
asynchronous platform interaction, in the order the flow awaits them. -/
structure FlowEnv where
  includeMic : Bool
  includeSystemAudio : Bool
  micResult : Option StreamObj
  permissionsAvailable : Bool
  permQueryResult : Option PermState
  confirmProceed : Bool
  displayResult : DisplayOutcome
  isTypeSupported : String → Bool
  mixThrows : Bool
  mixErrMessage : String
  recorderCtorOk : Bool
  recorderCtorErrMessage : String
  recorderStartOk : Bool
  recorderStartErrMessage : String

/-- How one run of startRecordingFlow returned. -/
inductive FlowOutcome where
  | micDeniedPermanent
  | micDeclined
  | displayCancelled
  | displayFailed
  | mixFailed
  | recorderCtorFailed
  | recorderStartFailed
  | recording
deriving DecidableEq

/-- The result of one run of startRecordingFlow: the final module state,
the outcome, the final status message, and observability flags for which
stages ran and which UI surfaces were shown. -/
structure FlowResult where
  state : PopupState
  outcome : FlowOutcome
  status : String
  displayRequested : Bool
  confirmShown : Bool
  micDeniedUIShown : Bool
  mixInvoked : Bool
  recorderCtorAttempted : Bool
  usedDefaultRecorderConfig : Bool
  negotiatedMime : String
  warnedDisplayFailure : Bool
  recorderCreated : Bool
deriving DecidableEq

/-- A FlowResult with every observability flag off. -/
def baseResult (s : PopupState) (o : FlowOutcome) (st : String) : FlowResult :=
  { state := s, outcome := o, status := st, displayRequested := false,
    confirmShown := false, micDeniedUIShown := false, mixInvoked := false,
    recorderCtorAttempted := false, usedDefaultRecorderConfig := false,
    negotiatedMime := "", warnedDisplayFailure := false, recorderCreated := false }

/-- The error names startRecordingFlow treats as user cancellation of the
display picker (popup.js 617). -/
def silentErrorNames : List String :=
  ["AbortError", "NotAllowedError", "SecurityError", "NotFoundError", "NotReadableError"]

/-- Fresh id used for the AudioContext allocated by the mixer. -/
def freshCtxId : Nat := 0

/-- Fresh id used for the poll interval set by attachDisplayEndHandlers. -/
def freshPollId : Nat := 0

/-- Fresh id used for the mixed audio track of the destination stream. -/
def freshMixedTrackId : Nat := 1000

/-- Steps 3-7 of startRecordingFlow (popup.js 642-748): audio mixing,
preview, MediaRecorder creation, handler setup, recorder start.
d is the display stream stored in the module state by step 2. -/
def flowStep3 (env : FlowEnv) (s : PopupState) (d : StreamObj)
    (confirmShown : Bool) : FlowResult :=
  let anyAudio := d.hasAudio || optHasAudio s.micStream
  if env.mixThrows && anyAudio then
    let s := { s with liveTracks :=
                 stopAllTracks (stopAllTracks s.liveTracks (some d)) s.micStream }
    { baseResult s FlowOutcome.mixFailed
        ("Failed to prepare audio mixing: " ++ env.mixErrMessage) with
      displayRequested := true, confirmShown := confirmShown, mixInvoked := true }
  else
    let mr := createCombinedStreamUsingAudioContext d s.micStream freshCtxId freshMixedTrackId
    let s := { s with
      combinedStream := some mr.out,
      openContexts :=
        if mr.contextCreated then s.openContexts ++ [freshCtxId] else s.openContexts,
      liveTracks :=
        if mr.contextCreated then s.liveTracks ++ [freshMixedTrackId] else s.liveTracks,
      previewAttached := true }
    let mimeType := getSupportedMimeType env.isTypeSupported
    if env.recorderCtorOk then
      if env.recorderStartOk then
        { baseResult s FlowOutcome.recording "Recording... Click Stop to finish." with
          displayRequested := true, confirmShown := confirmShown, mixInvoked := true,
          recorderCtorAttempted := true, usedDefaultRecorderConfig := (mimeType == ""),
          negotiatedMime := mimeType, recorderCreated := true }
      else
        let live :=
          stopAllTracks (stopAllTracks (stopAllTracks s.liveTracks s.combinedStream)
            s.displayStream) s.micStream
        let s := { s with liveTracks := live }
        { baseResult s FlowOutcome.recorderStartFailed
            ("Could not start recorder: " ++ env.recorderStartErrMessage) with
          displayRequested := true, confirmShown := confirmShown, mixInvoked := true,
          recorderCtorAttempted := true, usedDefaultRecorderConfig := (mimeType == ""),
          negotiatedMime := mimeType, recorderCreated := true }
    else
      let live :=
        stopAllTracks (stopAllTracks (stopAllTracks s.liveTracks s.combinedStream)
          s.displayStream) s.micStream
      let s := { s with liveTracks := live }
      { baseResult s FlowOutcome.recorderCtorFailed
          ("Recording failed: " ++ env.recorderCtorErrMessage) with
        displayRequested := true, confirmShown := confirmShown, mixInvoked := true,
        recorderCtorAttempted := true, usedDefaultRecorderConfig := (mimeType == ""),
        negotiatedMime := mimeType }

/-- Step 2 of startRecordingFlow (popup.js 589-640): getDisplayMedia plus
attachDisplayEndHandlers on success, and the cancellation/failure
classification of the catch block on error. -/
def flowStep2 (env : FlowEnv) (s : PopupState) (confirmShown : Bool) : FlowResult :=
  match env.displayResult with
  | DisplayOutcome.err e =>
    let isUserCancellation := silentErrorNames.contains e.name
    let status :=
      if isUserCancellation then "Ready. Screen sharing was cancelled."
      else "Failed to start display capture: " ++ e.message
    let s := { s with liveTracks := stopAllTracks s.liveTracks s.micStream,
                      micStream := none }
    { baseResult s
        (if isUserCancellation then FlowOutcome.displayCancelled
         else FlowOutcome.displayFailed) status with
      displayRequested := true, confirmShown := confirmShown,
      warnedDisplayFailure := !isUserCancellation }
  | DisplayOutcome.ok d =>
    let hasVideo := d.getVideoTracks.head?.isSome
    let d := if hasVideo then { d with shareEndPollId := some freshPollId } else d
    let s := { s with
      displayStream := some d,
      liveTracks := s.liveTracks ++ d.trackIds,
      activeIntervals :=
        if hasVideo then s.activeIntervals ++ [freshPollId] else s.activeIntervals }
    flowStep3 env s d confirmShown

/-- startRecordingFlow() (popup.js 540-748).  Step 1: clear the mic
reference; when the mic is requested, either store the granted stream, or
on failure re-check the permission state — an explicit denied state shows
the remediation UI and returns, any other state offers the
continue-without-mic confirm, declining which returns.  Then steps 2-7
via flowStep2/flowStep3. -/
def startRecordingFlow (env : FlowEnv) (s0 : PopupState) : FlowResult :=
  let s := { s0 with micStream := none }
  if env.includeMic then
    match env.micResult with
    | some m =>
      let s := { s with micStream := some m, liveTracks := s.liveTracks ++ m.trackIds }
      flowStep2 env s false
    | none =>
      match checkMicPermissionState env.permissionsAvailable env.permQueryResult with
      | some PermState.denied =>
        { baseResult s FlowOutcome.micDeniedPermanent "Microphone permission is denied."
          with micDeniedUIShown := true }
      | _ =>
        if !env.confirmProceed then
          { baseResult s FlowOutcome.micDeclined
              "Recording cancelled because microphone is required." with
            confirmShown := true }
        else
          flowStep2 env s true
  else
    flowStep2 env s false

/-! ## End-of-capture detection (popup.js 323-365 and 758-779) -/

/-- The states of a MediaRecorder. -/
inductive RecorderState where
  | inactive
  | recording
  | paused
deriving DecidableEq

/-- The state observed by the two end-of-capture detection mechanisms:
whether a recorder object exists and its state, whether the monitored
display video track has ended, whether the poll interval is still
registered, and how many stop-and-finalize sequences have been
triggered. -/
structure MonState where
  recorderPresent : Bool
  recorderState : RecorderState
  trackEnded : Bool
  pollActive : Bool
  stopFinalizeCount : Nat
deriving DecidableEq

/-- stopRecordingFlow() (popup.js 758-779) as seen by the detection
handlers: an active recorder is stopped, which triggers exactly one
stop-and-finalize sequence (recorder.onstop -> handleRecorderStop) and
leaves the recorder inactive; otherwise only manual cleanup runs, which
triggers no finalize. -/
def stopRecordingFlowModel (s : MonState) : MonState :=
  if s.recorderPresent && s.recorderState != RecorderState.inactive then
    { s with recorderState := RecorderState.inactive,
             stopFinalizeCount := s.stopFinalizeCount + 1 }
  else s

/-- The two detection mechanisms attachDisplayEndHandlers registers. -/
inductive DetectEvent where
  | endedEvent
  | pollTick
deriving DecidableEq

/-- Handling one detection firing: the track's own ended listener calls
stopRecordingFlow only when the recorder is active; a poll tick fires
only while the interval is registered, and on seeing the ended track
first clears the interval and then calls stopRecordingFlow under the
same guard. -/
def handleDetectEvent (s : MonState) (e : DetectEvent) : MonState :=
  match e with
  | DetectEvent.endedEvent =>
    if s.recorderPresent && s.recorderState != RecorderState.inactive then
      stopRecordingFlowModel s
    else s
  | DetectEvent.pollTick =>
    if s.pollActive then
      if s.trackEnded then
        let s := { s with pollActive := false }
        if s.recorderPresent && s.recorderState != RecorderState.inactive then
          stopRecordingFlowModel s
        else s
      else s
    else s

/-- Running a sequence of detection firings. -/
def runDetect (s : MonState) (es : List DetectEvent) : MonState :=
  es.foldl handleDetectEvent s

/-- The monitored state right after the display video track ends while a
session is recording: recorder present and recording, track ended, poll
interval registered, no stop-and-finalize triggered yet. -/
def monInit : MonState :=
  { recorderPresent := true, recorderState := RecorderState.recording,
    trackEnded := true, pollActive := true, stopFinalizeCount := 0 }

/-! ## Chunk accumulation and finalization (popup.js 701-709 and 404-460) -/

/-- The byte payload of one encoder data event. -/
abbrev Chunk := List Nat

/-- recorder.ondataavailable: pushes event.data onto recordedChunks when
event.data is non-null and event.data.size > 0. -/
def pushChunk (recordedChunks : List Chunk) (data : Option Chunk) : List Chunk :=
  match data with
  | some d => if 0 < d.length then recordedChunks ++ [d] else recordedChunks
  | none => recordedChunks

/-- The recordedChunks accumulator after a sequence of ondataavailable
events, starting from the empty list set up at recorder creation. -/
def recordedChunksAfter (events : List (Option Chunk)) : List Chunk :=
  events.foldl pushChunk []

/-- new Blob(recordedChunks, ...): the byte content of the finalized blob is
the concatenation of the accumulated chunks in list order. -/
def finalBlobBytes (chunks : List Chunk) : List Nat :=
  chunks.flatten

/-! ## Concrete streams, states and environments used as test inputs -/

/-- A microphone stream with one audio track. -/
def micSample : StreamObj := { tracks := [{ id := 10, kind := TrackKind.audio }] }

/-- A display stream with one video and one audio track. -/
def dispAVSample : StreamObj :=
  { tracks := [{ id := 1, kind := TrackKind.video }, { id := 2, kind := TrackKind.audio }] }

/-- A neutral environment; concrete runs override the relevant fields. -/
def defaultEnv : FlowEnv :=
  { includeMic := false, includeSystemAudio := false, micResult := none,
    permissionsAvailable := false, permQueryResult := none, confirmProceed := false,
    displayResult := DisplayOutcome.err { name := "AbortError", message := "cancel" },
    isTypeSupported := fun _ => false, mixThrows := false, mixErrMessage := "",
    recorderCtorOk := true, recorderCtorErrMessage := "", recorderStartOk := true,
    recorderStartErrMessage := "" }

/-- Mic granted, then the display picker is cancelled. -/
def envCancel : FlowEnv :=
  { defaultEnv with includeMic := true, micResult := some micSample }

/-- Mic requested, the request fails, and the permission state reports
denied. -/
def envDenied : FlowEnv :=
  { defaultEnv with
    includeMic := true, micResult := none,
    permissionsAvailable := true, permQueryResult := some PermState.denied }

/-- Mic requested, the request fails, and the Permissions API is absent;
the user accepts the continue-without-mic confirm. -/
def envNoPermApi : FlowEnv :=
  { defaultEnv with
    includeMic := true, micResult := none,
    permissionsAvailable := false, permQueryResult := some PermState.granted,
    confirmProceed := true }

/-- Display capture fails with an error outside the silent set. -/
def envHardFail : FlowEnv :=
  { defaultEnv with
    displayResult := DisplayOutcome.err { name := "TypeError", message := "boom" } }

/-- Display capture succeeds with audio, no format is supported, and the
recorder constructor throws. -/
def envCtorFail : FlowEnv :=
  { defaultEnv with
    displayResult := DisplayOutcome.ok dispAVSample,
    recorderCtorOk := false, recorderCtorErrMessage := "ctor" }

/-- A module state holding every kind of resource at once: a combined
stream with an open audio context, a display stream with an active poll
interval, and a mic stream. -/
def sFull : PopupState :=
  { combinedStream := some { tracks := [{ id := 1, kind := TrackKind.video },
                                        { id := 4, kind := TrackKind.audio }],
                             audioContext := some 7 },
    displayStream := some { tracks := [{ id := 1, kind := TrackKind.video },
                                       { id := 2, kind := TrackKind.audio }],
                            shareEndPollId := some 5 },
    micStream := some { tracks := [{ id := 10, kind := TrackKind.audio }] },
    openContexts := [7], activeIntervals := [5], liveTracks := [1, 2, 4, 10],
    previewAttached := true }

end ScreenRecorder

namespace ScreenRecorder

/-! ## Helper lemmas -/

theorem pushChunk_append (acc : List Chunk) (e : Option Chunk) :
    pushChunk acc e = acc ++ pushChunk [] e := by
  cases e with
  | none => simp [pushChunk]
  | some d =>
    by_cases h : 0 < d.length <;> simp [pushChunk, h]

theorem foldl_pushChunk_acc (events : List (Option Chunk)) (acc : List Chunk) :
    events.foldl pushChunk acc = acc ++ events.foldl pushChunk [] := by
  induction events generalizing acc with
  | nil => simp
  | cons e es ih =>
    rw [List.foldl_cons, List.foldl_cons, ih (pushChunk acc e),
      ih (pushChunk [] e), pushChunk_append, List.append_assoc]

theorem runDetect_inactive (es : List DetectEvent) (s : MonState)
    (h : s.recorderState = RecorderState.inactive) :
    (runDetect s es).stopFinalizeCount = s.stopFinalizeCount := by
  induction es generalizing s with
  | nil => rfl
  | cons e es ih =>
    have hstep : (handleDetectEvent s e).stopFinalizeCount = s.stopFinalizeCount ∧
        (handleDetectEvent s e).recorderState = RecorderState.inactive := by
      cases e with
      | endedEvent => simp [handleDetectEvent, stopRecordingFlowModel, h]
      | pollTick =>
        by_cases hp : s.pollActive
        · by_cases ht : s.trackEnded
          · simp [handleDetectEvent, stopRecordingFlowModel, hp, ht, h]
          · simp [handleDetectEvent, hp, ht, h]
        · simp [handleDetectEvent, hp, h]
    have := ih (handleDetectEvent s e) hstep.2
    calc (runDetect s (e :: es)).stopFinalizeCount
        = (runDetect (handleDetectEvent s e) es).stopFinalizeCount := rfl
      _ = (handleDetectEvent s e).stopFinalizeCount := this
      _ = s.stopFinalizeCount := hstep.1

theorem not_mem_filter_ne (l : List Nat) (a : Nat) :
    a ∉ l.filter (fun x => x != a) := by
  intro h
  have := (List.mem_filter.mp h).2
  simp at this

theorem stopAllTracks_subset (live : List Nat) (so : Option StreamObj) :
    stopAllTracks live so ⊆ live := by
  cases so with
  | none => exact fun x h => h
  | some st => exact List.filter_subset' _

theorem not_mem_stopAllTracks_of_track (live : List Nat) (st : StreamObj) (t : Track)
    (h : t ∈ st.tracks) : t.id ∉ stopAllTracks live (some st) := by
  intro hmem
  have h2 := (List.mem_filter.mp hmem).2
  have hid : t.id ∈ st.trackIds := List.mem_map.mpr ⟨t, h, rfl⟩
  simp [List.contains, hid] at h2

theorem pairwise_le_const (l : List Nat) (k : Nat) (h : ∀ x ∈ l, x = k) :
    l.Pairwise (fun a b => a ≤ b) := by
  induction l with
  | nil => exact List.Pairwise.nil
  | cons a l ih =>
    refine List.Pairwise.cons ?_ (ih fun x hx => h x (List.mem_cons_of_mem a hx))
    intro b hb
    rw [h a (List.mem_cons_self a l), h b (List.mem_cons_of_mem a hb)]

theorem pairwise_le_phases (l0 l1 l2 l3 l4 : List Nat)
    (h0 : ∀ x ∈ l0, x = 0) (h1 : ∀ x ∈ l1, x = 1) (h2 : ∀ x ∈ l2, x = 2)
    (h3 : ∀ x ∈ l3, x = 3) (h4 : ∀ x ∈ l4, x = 3) :
    (l0 ++ l1 ++ l2 ++ l3 ++ l4 ++ [4]).Pairwise (fun a b => a ≤ b) := by
  have b01 : ∀ x ∈ l0 ++ l1, x ≤ 1 := by
    intro x hx
    rcases List.mem_append.mp hx with hx | hx
    · rw [h0 x hx]; omega
    · rw [h1 x hx]
  have b012 : ∀ x ∈ l0 ++ l1 ++ l2, x ≤ 2 := by
    intro x hx
    rcases List.mem_append.mp hx with hx | hx
    · exact Nat.le_trans (b01 x hx) (by omega)
    · rw [h2 x hx]
  have b0123 : ∀ x ∈ l0 ++ l1 ++ l2 ++ l3, x ≤ 3 := by
    intro x hx
    rcases List.mem_append.mp hx with hx | hx
    · exact Nat.le_trans (b012 x hx) (by omega)
    · rw [h3 x hx]
  have b01234 : ∀ x ∈ l0 ++ l1 ++ l2 ++ l3 ++ l4, x ≤ 3 := by
    intro x hx
    rcases List.mem_append.mp hx with hx | hx
    · exact b0123 x hx
    · rw [h4 x hx]
  have p01 : (l0 ++ l1).Pairwise (fun a b => a ≤ b) := by
    refine List.pairwise_append.mpr
      ⟨pairwise_le_const l0 0 h0, pairwise_le_const l1 1 h1, ?_⟩
    intro x hx y hy
    rw [h0 x hx]
    omega
  have p012 : (l0 ++ l1 ++ l2).Pairwise (fun a b => a ≤ b) := by
    refine List.pairwise_append.mpr ⟨p01, pairwise_le_const l2 2 h2, ?_⟩
    intro x hx y hy
    rw [h2 y hy]
    exact Nat.le_trans (b01 x hx) (by omega)
  have p0123 : (l0 ++ l1 ++ l2 ++ l3).Pairwise (fun a b => a ≤ b) := by
    refine List.pairwise_append.mpr ⟨p012, pairwise_le_const l3 3 h3, ?_⟩
    intro x hx y hy
    rw [h3 y hy]
    exact Nat.le_trans (b012 x hx) (by omega)
  have p01234 : (l0 ++ l1 ++ l2 ++ l3 ++ l4).Pairwise (fun a b => a ≤ b) := by
    refine List.pairwise_append.mpr ⟨p0123, pairwise_le_const l4 3 h4, ?_⟩
    intro x hx y hy
    rw [h4 y hy]
    exact b0123 x hx
  refine List.pairwise_append.mpr ⟨p01234, by simp, ?_⟩
  intro x hx y hy
  simp only [List.mem_singleton] at hy
  rw [hy]
  exact Nat.le_trans (b01234 x hx) (by omega)

theorem mem_stopAllTracks (x : Nat) (live : List Nat) (so : Option StreamObj) :
    x ∈ stopAllTracks live so ↔ x ∈ live ∧ x ∉ optTrackIds so := by
  cases so with
  | none => simp [stopAllTracks, optTrackIds]
  | some st =>
    simp [stopAllTracks, stopTrackIds, List.mem_filter, optTrackIds, List.contains]

theorem stopAllTracks_of_sub (live : List Nat) (so : Option StreamObj)
    (h : live ⊆ optTrackIds so) : stopAllTracks live so = [] := by
  rw [List.eq_nil_iff_forall_not_mem]
  intro x hx
  rcases (mem_stopAllTracks x live so).mp hx with ⟨h1, h2⟩
  exact h2 (h h1)

theorem stopAllTracks_three_nil (live : List Nat) (c d m : Option StreamObj)
    (h : ∀ x ∈ live, x ∈ optTrackIds c ∨ x ∈ optTrackIds d ∨ x ∈ optTrackIds m) :
    stopAllTracks (stopAllTracks (stopAllTracks live c) d) m = [] := by
  rw [List.eq_nil_iff_forall_not_mem]
  intro x hx
  rcases (mem_stopAllTracks x _ m).mp hx with ⟨hx, hm⟩
  rcases (mem_stopAllTracks x _ d).mp hx with ⟨hx, hd⟩
  rcases (mem_stopAllTracks x _ c).mp hx with ⟨hx, hc⟩
  rcases h x hx with h1 | h1 | h1
  · exact hc h1
  · exact hd h1
  · exact hm h1

theorem mix_out_mixedTrack (d : StreamObj) (m : Option StreamObj) (cid tid : Nat)
    (h : (createCombinedStreamUsingAudioContext d m cid tid).contextCreated = true) :
    tid ∈ (createCombinedStreamUsingAudioContext d m cid tid).out.trackIds := by
  unfold createCombinedStreamUsingAudioContext at h ⊢
  cases hb : d.hasAudio <;> cases hm : optHasAudio m <;>
    simp only [hb, hm, Bool.not_false, Bool.not_true, Bool.and_self, Bool.false_and,
      Bool.and_false, Bool.and_true, Bool.true_and, if_true, if_false,
      Bool.true_eq_false, Bool.false_eq_true] at h ⊢ <;>
    cases hh : d.getVideoTracks.head? <;>
    simp [StreamObj.trackIds, List.mem_map, List.mem_append]

theorem firstSupported_eq_find (f : String → Bool) (l : List String) :
    firstSupported f l = (l.find? f).getD "" := by
  induction l with
  | nil => rfl
  | cons c rest ih =>
    by_cases hc : f c
    · simp [firstSupported, hc, List.find?_cons_of_pos _ hc]
    · have hc' : f c = false := by simpa using hc
      simp [firstSupported, hc', List.find?_cons_of_neg, ih]

theorem firstSupported_none (f : String → Bool) (l : List String)
    (h : ∀ c ∈ l, f c = false) : firstSupported f l = "" := by
  induction l with
  | nil => rfl
  | cons c rest ih =>
    simp only [firstSupported, h c (List.mem_cons_self c rest), Bool.false_eq_true, if_false]
    exact ih fun x hx => h x (List.mem_cons_of_mem c hx)

theorem flowStep2_err_resourceFree (env : FlowEnv) (s : PopupState) (cs : Bool)
    (e : DisplayErr) (he : env.displayResult = DisplayOutcome.err e)
    (h1 : s.combinedStream = none) (h2 : s.displayStream = none)
    (h3 : s.openContexts = []) (h4 : s.activeIntervals = [])
    (h5 : s.liveTracks ⊆ optTrackIds s.micStream) :
    resourceFree (flowStep2 env s cs).state := by
  simp only [flowStep2, he]
  cases hn : silentErrorNames.contains e.name <;>
    exact ⟨h1, h2, rfl, h3, h4, stopAllTracks_of_sub _ _ h5⟩

theorem flowStep3_not_cancel (env : FlowEnv) (s : PopupState) (d : StreamObj) (cs : Bool) :
    (flowStep3 env s d cs).outcome ≠ FlowOutcome.micDeniedPermanent ∧
    (flowStep3 env s d cs).outcome ≠ FlowOutcome.micDeclined ∧
    (flowStep3 env s d cs).outcome ≠ FlowOutcome.displayCancelled ∧
    (flowStep3 env s d cs).outcome ≠ FlowOutcome.displayFailed := by
  simp only [flowStep3]
  split
  · simp [baseResult]
  · split
    · split <;> simp [baseResult]
    · simp [baseResult]

theorem flowStep3_flags (env : FlowEnv) (s : PopupState) (d : StreamObj) (cs : Bool) :
    (flowStep3 env s d cs).confirmShown = cs ∧
    (flowStep3 env s d cs).micDeniedUIShown = false := by
  simp only [flowStep3]
  split
  · simp [baseResult]
  · split
    · split <;> simp [baseResult]
    · simp [baseResult]

theorem flowStep2_flags (env : FlowEnv) (s : PopupState) (cs : Bool) :
    (flowStep2 env s cs).confirmShown = cs ∧
    (flowStep2 env s cs).micDeniedUIShown = false := by
  cases hdr : env.displayResult with
  | err e =>
    simp only [flowStep2, hdr]
    cases hn : silentErrorNames.contains e.name <;> simp [baseResult]
  | ok d =>
    simp only [flowStep2, hdr]
    exact flowStep3_flags _ _ _ _

theorem flowStep3_props (env : FlowEnv) (s : PopupState) (d : StreamObj) (cs : Bool)
    (hds : s.displayStream = some d)
    (hlive : ∀ x ∈ s.liveTracks, x ∈ d.trackIds ∨ x ∈ optTrackIds s.micStream)
    (hat : (flowStep3 env s d cs).recorderCtorAttempted = true) :
    (flowStep3 env s d cs).negotiatedMime
      = ((candidates.find? env.isTypeSupported).getD "") ∧
    ((∀ c ∈ candidates, env.isTypeSupported c = false) →
      (flowStep3 env s d cs).usedDefaultRecorderConfig = true) ∧
    (env.recorderCtorOk = true → env.recorderStartOk = true →
      (flowStep3 env s d cs).outcome = FlowOutcome.recording) ∧
    (env.recorderCtorOk = false →
      (flowStep3 env s d cs).outcome = FlowOutcome.recorderCtorFailed ∧
      (flowStep3 env s d cs).status = "Recording failed: " ++ env.recorderCtorErrMessage ∧
      (flowStep3 env s d cs).state.liveTracks = []) := by
  have hmime : getSupportedMimeType env.isTypeSupported
      = ((candidates.find? env.isTypeSupported).getD "") :=
    firstSupported_eq_find env.isTypeSupported candidates
  have hdefault : (∀ c ∈ candidates, env.isTypeSupported c = false) →
      (getSupportedMimeType env.isTypeSupported == "") = true := by
    intro hns
    rw [getSupportedMimeType, firstSupported_none env.isTypeSupported candidates hns]
    rfl
  have hstops : ∀ live0 : List Nat,
      (∀ x ∈ live0, x ∈ d.trackIds ∨ x ∈ optTrackIds s.micStream) →
      stopAllTracks (stopAllTracks (stopAllTracks live0
        (some (createCombinedStreamUsingAudioContext d s.micStream
          freshCtxId freshMixedTrackId).out)) s.displayStream) s.micStream = [] := by
    intro live0 hl0
    apply stopAllTracks_three_nil
    intro x hx
    rcases hl0 x hx with h1 | h1
    · rw [hds]
      exact Or.inr (Or.inl h1)
    · exact Or.inr (Or.inr h1)
  have hstopsMixed :
      stopAllTracks (stopAllTracks (stopAllTracks (s.liveTracks ++ [freshMixedTrackId])
        (some (createCombinedStreamUsingAudioContext d s.micStream
          freshCtxId freshMixedTrackId).out)) s.displayStream) s.micStream = []
      ∨ (createCombinedStreamUsingAudioContext d s.micStream
          freshCtxId freshMixedTrackId).contextCreated = false := by
    by_cases hcc : (createCombinedStreamUsingAudioContext d s.micStream
        freshCtxId freshMixedTrackId).contextCreated = true
    · left
      apply stopAllTracks_three_nil
      intro x hx
      rcases List.mem_append.mp hx with h1 | h1
      · rcases hlive x h1 with h2 | h2
        · rw [hds]
          exact Or.inr (Or.inl h2)
        · exact Or.inr (Or.inr h2)
      · left
        simp only [List.mem_singleton] at h1
        subst h1
        exact mix_out_mixedTrack d s.micStream freshCtxId freshMixedTrackId hcc
    · right
      simpa using hcc
  simp only [flowStep3] at hat ⊢
  split at hat
  · simp [baseResult] at hat
  · rename_i hmix
    have hmix' : (env.mixThrows && (d.hasAudio || optHasAudio s.micStream)) = false := by
      simpa using hmix
    simp only [hmix', Bool.false_eq_true, if_false]
    by_cases hco : env.recorderCtorOk = true
    · by_cases hso : env.recorderStartOk = true
      · simp only [hco, hso, eq_self_iff_true, if_true]
        exact ⟨hmime, hdefault, fun _ _ => rfl, fun hcf => Bool.noConfusion hcf⟩
      · have hso' : env.recorderStartOk = false := by simpa using hso
        simp only [hco, hso', eq_self_iff_true, if_true, Bool.false_eq_true, if_false]
        exact ⟨hmime, hdefault, fun _ hs2 => hs2.elim, fun hcf => Bool.noConfusion hcf⟩
    · have hco' : env.recorderCtorOk = false := by simpa using hco
      simp only [hco', Bool.false_eq_true, if_false]
      refine ⟨hmime, hdefault, fun hc2 _ => hc2.elim, fun _ => ⟨rfl, rfl, ?_⟩⟩
      by_cases hcc : (createCombinedStreamUsingAudioContext d s.micStream
          freshCtxId freshMixedTrackId).contextCreated = true
      · simp only [hcc, eq_self_iff_true, if_true]
        exact hstopsMixed.resolve_right (by simp [hcc])
      · have hcc' : (createCombinedStreamUsingAudioContext d s.micStream
            freshCtxId freshMixedTrackId).contextCreated = false := by simpa using hcc
        simp only [hcc', Bool.false_eq_true, if_false]
        exact hstops s.liveTracks hlive

theorem flowStep2_err_class (env : FlowEnv) (s : PopupState) (cs : Bool) (e : DisplayErr)
    (he : env.displayResult = DisplayOutcome.err e) :
    ((flowStep2 env s cs).outcome = FlowOutcome.displayCancelled ↔
      silentErrorNames.contains e.name = true) ∧
    (silentErrorNames.contains e.name = true →
      (flowStep2 env s cs).status = "Ready. Screen sharing was cancelled." ∧
      (flowStep2 env s cs).warnedDisplayFailure = false) ∧
    (silentErrorNames.contains e.name = false →
      (flowStep2 env s cs).outcome = FlowOutcome.displayFailed ∧
      (flowStep2 env s cs).status = "Failed to start display capture: " ++ e.message ∧
      (flowStep2 env s cs).warnedDisplayFailure = true) := by
  simp only [flowStep2, he]
  cases hn : silentErrorNames.contains e.name <;> simp [baseResult, hn]

/-! ## Claim theorems -/

/-- C5: for a session receiving encoder chunks c1, ..., cn in arrival order,
the finalized blob's byte content is the exact concatenation of the
chunks: ondataavailable appends each chunk in delivery order and the
final blob is built from the accumulated list in that order. -/
theorem C5_chunk_order (cs : List Chunk) :
    finalBlobBytes (recordedChunksAfter (cs.map some)) = cs.flatten := by
  induction cs with
  | nil => rfl
  | cons c cs ih =>
    have hstep : recordedChunksAfter (some c :: cs.map some)
        = pushChunk [] (some c) ++ recordedChunksAfter (cs.map some) := by
      unfold recordedChunksAfter
      rw [List.foldl_cons, foldl_pushChunk_acc]
    by_cases h : 0 < c.length
    · simp only [List.map_cons, hstep, pushChunk, h, if_pos, finalBlobBytes,
        List.flatten_append, List.flatten_cons] at *
      simp [ih]
    · have hc : c = [] := by
        simpa using List.length_eq_zero.mp (Nat.eq_zero_of_not_pos h)
      simp only [List.map_cons, hstep, pushChunk, h, if_neg, finalBlobBytes,
        List.flatten_cons] at *
      simp [hc, ih]

/-- C3: when the display video track ends while a session is recording,
any nonempty sequence of detection firings (the track's own ended event,
poll ticks, in any order and multiplicity) triggers exactly one
stop-and-finalize sequence. -/
theorem C3_single_stop_finalize (es : List DetectEvent) (h : es ≠ []) :
    (runDetect monInit es).stopFinalizeCount = 1 := by
  cases es with
  | nil => exact absurd rfl h
  | cons e rest =>
    have hrun : runDetect monInit (e :: rest) = runDetect (handleDetectEvent monInit e) rest := rfl
    cases e with
    | endedEvent =>
      rw [hrun, runDetect_inactive rest _ (by decide)]
      decide
    | pollTick =>
      rw [hrun, runDetect_inactive rest _ (by decide)]
      decide

theorem mem_getVideoTracks_kind (s : StreamObj) (v : Track)
    (h : v ∈ s.getVideoTracks) : v.kind = TrackKind.video := by
  have := List.mem_filter.mp h
  simpa using this.2

/-- C4: for every combination of display/mic audio presence, the mixer
allocates the audio context iff at least one source has an audio track;
when neither has audio the result is the video-only stream with no
context; a source without audio tracks is skipped (never connected, no
error) while a source with audio is connected; and the composed stream
carries at most one audio track (exactly the mixed one when any source
had audio). -/
theorem C4_mixer_correct (d : StreamObj) (m : Option StreamObj) (ctxId tid : Nat) :
    (createCombinedStreamUsingAudioContext d m ctxId tid).contextCreated
      = (d.hasAudio || optHasAudio m) ∧
    (createCombinedStreamUsingAudioContext d m ctxId tid).displayConnected = d.hasAudio ∧
    (createCombinedStreamUsingAudioContext d m ctxId tid).micConnected = optHasAudio m ∧
    (createCombinedStreamUsingAudioContext d m ctxId tid).out.tracks
      = d.getVideoTracks.take 1 ++
        (if d.hasAudio || optHasAudio m then [{ id := tid, kind := TrackKind.audio }] else []) ∧
    (createCombinedStreamUsingAudioContext d m ctxId tid).out.audioContext
      = (if d.hasAudio || optHasAudio m then some ctxId else none) ∧
    (createCombinedStreamUsingAudioContext d m ctxId tid).out.getAudioTracks.length ≤ 1 := by
  unfold createCombinedStreamUsingAudioContext
  cases hl : d.getVideoTracks with
  | nil =>
    cases hb : d.hasAudio <;> cases hm : optHasAudio m <;>
      simp [hb, hm, StreamObj.getAudioTracks]
  | cons x xs =>
    have hx : (x.kind == TrackKind.audio) = false := by
      have : x.kind = TrackKind.video :=
        mem_getVideoTracks_kind d x (hl ▸ List.mem_cons_self x xs)
      simp [this]
    cases hb : d.hasAudio <;> cases hm : optHasAudio m <;>
      simp [hb, hm, StreamObj.getAudioTracks, hx, List.take]

/-- C2: teardown is idempotent and never throws (it is a total function on
every state, including partially-constructed ones): a second call leaves
the state of the first call unchanged, and one call already yields the
fully-released state — all stream references null, the combined stream's
audio context closed, the display stream's poll interval cleared, and
every track of every acquired stream stopped. -/
theorem C2_teardown_idempotent (s : PopupState) :
    (cleanupRecordingResources (cleanupRecordingResources s).1).1
      = (cleanupRecordingResources s).1 ∧
    (cleanupRecordingResources s).1.combinedStream = none ∧
    (cleanupRecordingResources s).1.displayStream = none ∧
    (cleanupRecordingResources s).1.micStream = none ∧
    (∀ c ctx, s.combinedStream = some c → c.audioContext = some ctx →
      ctx ∉ (cleanupRecordingResources s).1.openContexts) ∧
    (∀ d i, s.displayStream = some d → d.shareEndPollId = some i →
      i ∉ (cleanupRecordingResources s).1.activeIntervals) ∧
    (∀ c t, s.combinedStream = some c → t ∈ c.tracks →
      t.id ∉ (cleanupRecordingResources s).1.liveTracks) ∧
    (∀ d t, s.displayStream = some d → t ∈ d.tracks →
      t.id ∉ (cleanupRecordingResources s).1.liveTracks) ∧
    (∀ m t, s.micStream = some m → t ∈ m.tracks →
      t.id ∉ (cleanupRecordingResources s).1.liveTracks) := by
  refine ⟨rfl, rfl, rfl, rfl, ?_, ?_, ?_, ?_, ?_⟩
  · intro c ctx h1 h2
    simp only [cleanupRecordingResources, h1, h2]
    exact not_mem_filter_ne _ _
  · intro d i h1 h2
    simp only [cleanupRecordingResources, h1, h2]
    exact not_mem_filter_ne _ _
  · intro c t h1 ht
    simp only [cleanupRecordingResources, h1]
    intro hmem
    have hsub := stopAllTracks_subset
      (stopAllTracks (stopTrackIds s.liveTracks c.trackIds) s.displayStream) s.micStream
    have hsub2 := stopAllTracks_subset (stopTrackIds s.liveTracks c.trackIds) s.displayStream
    have : t.id ∈ stopAllTracks s.liveTracks (some c) := hsub2 (hsub hmem)
    exact not_mem_stopAllTracks_of_track s.liveTracks c t ht this
  · intro d t h1 ht
    simp only [cleanupRecordingResources, h1]
    intro hmem
    have hsub := stopAllTracks_subset
      (stopAllTracks (stopAllTracks s.liveTracks s.combinedStream) (some d)) s.micStream
    have : t.id ∈ stopAllTracks (stopAllTracks s.liveTracks s.combinedStream) (some d) :=
      hsub hmem
    exact not_mem_stopAllTracks_of_track _ d t ht this
  · intro m t h1 ht
    simp only [cleanupRecordingResources, h1]
    intro hmem
    exact not_mem_stopAllTracks_of_track _ m t ht hmem

/-- C2 witness: on a state holding a combined stream with an open context,
a display stream with an active poll interval, and a mic stream, one
teardown closes the context, clears the interval, and stops the mic
track; a second teardown changes nothing. -/
theorem C2_witness :
    (7 : Nat) ∉ (cleanupRecordingResources sFull).1.openContexts ∧
    (5 : Nat) ∉ (cleanupRecordingResources sFull).1.activeIntervals ∧
    (10 : Nat) ∉ (cleanupRecordingResources sFull).1.liveTracks ∧
    (cleanupRecordingResources (cleanupRecordingResources sFull).1).1
      = (cleanupRecordingResources sFull).1 := by
  refine ⟨?_, ?_, ?_, (C2_teardown_idempotent sFull).1⟩
  · exact (C2_teardown_idempotent sFull).2.2.2.2.1 _ 7 rfl rfl
  · exact (C2_teardown_idempotent sFull).2.2.2.2.2.1 _ 5 rfl rfl
  · exact (C2_teardown_idempotent sFull).2.2.2.2.2.2.2.2 _
      { id := 10, kind := TrackKind.audio } rfl (by decide)

/-- C6 counterexample: on a fully-populated recording state, the teardown
trace does not follow the spec's step order — the poll interval is
cleared before the display and mic stream tracks are stopped, so a
phase-2 event (interval clearing) precedes phase-1 events (track stops). -/
theorem C6_counterexample : ¬ specOrdered (cleanupRecordingResources sFull).2 := by
  decide

/-- C6 amended: teardown executes its steps in this fixed order on every
state: first close the mixing context (if any), then stop the combined
stream's tracks, then clear the end-of-capture poll interval (if any),
then stop the display and mic streams' tracks, then null out all
retained references; every acquired resource has its release event in
the trace.  (The claim's order — all track stops before the interval
clear — does not hold: the interval clear sits between the combined
stops and the display/mic stops.) -/
theorem C6_amended_teardown_order (s : PopupState) :
    codeOrdered (cleanupRecordingResources s).2 ∧
    (∀ c ctx, s.combinedStream = some c → c.audioContext = some ctx →
      TDEvent.closeContext ctx ∈ (cleanupRecordingResources s).2) ∧
    (∀ c t, s.combinedStream = some c → t ∈ c.tracks →
      TDEvent.stopTrack StreamName.combined t.id ∈ (cleanupRecordingResources s).2) ∧
    (∀ d i, s.displayStream = some d → d.shareEndPollId = some i →
      TDEvent.clearPollInterval i ∈ (cleanupRecordingResources s).2) ∧
    (∀ d t, s.displayStream = some d → t ∈ d.tracks →
      TDEvent.stopTrack StreamName.display t.id ∈ (cleanupRecordingResources s).2) ∧
    (∀ m t, s.micStream = some m → t ∈ m.tracks →
      TDEvent.stopTrack StreamName.mic t.id ∈ (cleanupRecordingResources s).2) ∧
    TDEvent.clearRefs ∈ (cleanupRecordingResources s).2 := by
  refine ⟨?_, ?_, ?_, ?_, ?_, ?_, ?_⟩
  · rcases s with ⟨cs, ds, ms, oc, ai, lt, pa⟩
    rcases cs with _ | ⟨ct, _ | cac, cp⟩ <;>
      rcases ds with _ | ⟨dt, da, _ | dp⟩ <;>
      rcases ms with _ | mm <;>
      · unfold codeOrdered cleanupRecordingResources stopTracksEvents
        simp only [List.map_append, List.map_map, List.map_nil, List.map_cons, codePhase]
        refine pairwise_le_phases _ _ _ _ _ ?_ ?_ ?_ ?_ ?_ <;>
          intro x hx <;>
          simp only [codePhase, List.mem_map, List.mem_singleton, List.not_mem_nil,
            Function.comp] at hx <;>
          first
          | exact hx.elim
          | exact hx
          | (obtain ⟨t, -, h⟩ := hx; exact h.symm)
  · intro c ctx h1 h2
    simp only [cleanupRecordingResources, h1, h2]
    exact List.mem_append_of_mem_left _ (List.mem_append_of_mem_left _
      (List.mem_append_of_mem_left _ (List.mem_append_of_mem_left _
        (List.mem_append_of_mem_left _ (List.mem_singleton.mpr rfl)))))
  · intro c t h1 ht
    simp only [cleanupRecordingResources, h1, stopTracksEvents]
    exact List.mem_append_of_mem_left _ (List.mem_append_of_mem_left _
      (List.mem_append_of_mem_left _ (List.mem_append_of_mem_left _
        (List.mem_append_of_mem_right _ (List.mem_map.mpr ⟨t, ht, rfl⟩)))))
  · intro d i h1 h2
    simp only [cleanupRecordingResources, h1, h2]
    exact List.mem_append_of_mem_left _ (List.mem_append_of_mem_left _
      (List.mem_append_of_mem_left _ (List.mem_append_of_mem_right _
        (List.mem_singleton.mpr rfl))))
  · intro d t h1 ht
    simp only [cleanupRecordingResources, h1, stopTracksEvents]
    exact List.mem_append_of_mem_left _ (List.mem_append_of_mem_left _
      (List.mem_append_of_mem_right _ (List.mem_map.mpr ⟨t, ht, rfl⟩)))
  · intro m t h1 ht
    simp only [cleanupRecordingResources, h1, stopTracksEvents]
    exact List.mem_append_of_mem_left _
      (List.mem_append_of_mem_right _ (List.mem_map.mpr ⟨t, ht, rfl⟩))
  · simp only [cleanupRecordingResources]
    exact List.mem_append_of_mem_right _ (List.mem_singleton.mpr rfl)

/-- C6 witness: on the fully-populated state the code-order property holds
and every release event appears in the trace. -/
theorem C6_witness :
    codeOrdered (cleanupRecordingResources sFull).2 ∧
    TDEvent.closeContext 7 ∈ (cleanupRecordingResources sFull).2 ∧
    TDEvent.clearPollInterval 5 ∈ (cleanupRecordingResources sFull).2 ∧
    TDEvent.stopTrack StreamName.mic 10 ∈ (cleanupRecordingResources sFull).2 :=
  ⟨(C6_amended_teardown_order sFull).1,
   (C6_amended_teardown_order sFull).2.1 _ 7 rfl rfl,
   (C6_amended_teardown_order sFull).2.2.2.1 _ 5 rfl rfl,
   (C6_amended_teardown_order sFull).2.2.2.2.2.1 _
     { id := 10, kind := TrackKind.audio } rfl (by decide)⟩

/-- C1: from an idle (resource-free) state, every user-level cancellation of
the start-up flow — permanent mic denial, declining to continue without
mic, the display picker being cancelled, or display capture failing —
returns to a resource-free state: any acquired microphone stream is
stopped and cleared, no display stream or live track remains, and no
audio mixing context is open. -/
theorem C1_cancellation_no_leak (env : FlowEnv) (s0 : PopupState)
    (h0 : resourceFree s0)
    (hc : (startRecordingFlow env s0).outcome = FlowOutcome.micDeniedPermanent ∨
          (startRecordingFlow env s0).outcome = FlowOutcome.micDeclined ∨
          (startRecordingFlow env s0).outcome = FlowOutcome.displayCancelled ∨
          (startRecordingFlow env s0).outcome = FlowOutcome.displayFailed) :
    resourceFree (startRecordingFlow env s0).state := by
  obtain ⟨hcs, hds, hms, hoc, hai, hlt⟩ := h0
  have hstep2 : ∀ (s' : PopupState) (cs : Bool),
      s'.combinedStream = none → s'.displayStream = none → s'.openContexts = [] →
      s'.activeIntervals = [] → s'.liveTracks ⊆ optTrackIds s'.micStream →
      ((flowStep2 env s' cs).outcome = FlowOutcome.micDeniedPermanent ∨
       (flowStep2 env s' cs).outcome = FlowOutcome.micDeclined ∨
       (flowStep2 env s' cs).outcome = FlowOutcome.displayCancelled ∨
       (flowStep2 env s' cs).outcome = FlowOutcome.displayFailed) →
      resourceFree (flowStep2 env s' cs).state := by
    intro s' cs h1 h2 h3 h4 h5 hc2
    cases hdr : env.displayResult with
    | err e => exact flowStep2_err_resourceFree env s' cs e hdr h1 h2 h3 h4 h5
    | ok d =>
      simp only [flowStep2, hdr] at hc2
      rcases hc2 with hc2 | hc2 | hc2 | hc2
      · exact absurd hc2 (flowStep3_not_cancel _ _ _ _).1
      · exact absurd hc2 (flowStep3_not_cancel _ _ _ _).2.1
      · exact absurd hc2 (flowStep3_not_cancel _ _ _ _).2.2.1
      · exact absurd hc2 (flowStep3_not_cancel _ _ _ _).2.2.2
  by_cases him : env.includeMic = true
  · cases hmr : env.micResult with
    | some m =>
      simp only [startRecordingFlow, him, eq_self_iff_true, if_true, hmr] at hc ⊢
      exact hstep2 _ _ hcs hds hoc hai (by simp [hlt, optTrackIds]) hc
    | none =>
      cases hperm : checkMicPermissionState env.permissionsAvailable env.permQueryResult with
      | none =>
        simp only [startRecordingFlow, him, eq_self_iff_true, if_true, hmr, hperm] at hc ⊢
        by_cases hcp : env.confirmProceed = true
        · simp only [hcp, Bool.not_true, Bool.false_eq_true, if_false] at hc ⊢
          exact hstep2 _ _ hcs hds hoc hai (by simp [hlt, optTrackIds]) hc
        · have hcp' : env.confirmProceed = false := by simpa using hcp
          simp only [hcp', Bool.not_false, if_true]
          exact ⟨hcs, hds, rfl, hoc, hai, hlt⟩
      | some st =>
        cases st with
        | denied =>
          simp only [startRecordingFlow, him, eq_self_iff_true, if_true, hmr, hperm]
          exact ⟨hcs, hds, rfl, hoc, hai, hlt⟩
        | granted =>
          simp only [startRecordingFlow, him, eq_self_iff_true, if_true, hmr, hperm] at hc ⊢
          by_cases hcp : env.confirmProceed = true
          · simp only [hcp, Bool.not_true, Bool.false_eq_true, if_false] at hc ⊢
            exact hstep2 _ _ hcs hds hoc hai (by simp [hlt, optTrackIds]) hc
          · have hcp' : env.confirmProceed = false := by simpa using hcp
            simp only [hcp', Bool.not_false, if_true]
            exact ⟨hcs, hds, rfl, hoc, hai, hlt⟩
        | prompt =>
          simp only [startRecordingFlow, him, eq_self_iff_true, if_true, hmr, hperm] at hc ⊢
          by_cases hcp : env.confirmProceed = true
          · simp only [hcp, Bool.not_true, Bool.false_eq_true, if_false] at hc ⊢
            exact hstep2 _ _ hcs hds hoc hai (by simp [hlt, optTrackIds]) hc
          · have hcp' : env.confirmProceed = false := by simpa using hcp
            simp only [hcp', Bool.not_false, if_true]
            exact ⟨hcs, hds, rfl, hoc, hai, hlt⟩
  · have him' : env.includeMic = false := by simpa using him
    simp only [startRecordingFlow, him', Bool.false_eq_true, if_false] at hc ⊢
    exact hstep2 _ _ hcs hds hoc hai (by simp [hlt, optTrackIds]) hc

/-- C1 witness: mic granted, then the display picker cancelled with
AbortError; the flow ends resource-free. -/
theorem C1_witness :
    resourceFree initialState ∧
    (startRecordingFlow envCancel initialState).outcome = FlowOutcome.displayCancelled ∧
    resourceFree (startRecordingFlow envCancel initialState).state :=
  ⟨⟨rfl, rfl, rfl, rfl, rfl, rfl⟩, by decide,
   C1_cancellation_no_leak envCancel initialState ⟨rfl, rfl, rfl, rfl, rfl, rfl⟩
     (Or.inr (Or.inr (Or.inl (by decide))))⟩

/-- C7: when display capture fails, the error name is checked against the
fixed silent set AbortError, NotAllowedError, SecurityError,
NotFoundError, NotReadableError: a name in the set is treated as user
cancellation — non-alarming ready status, no failure logging — and any
other name is surfaced as a failure together with the error message. -/
theorem C7_display_error_classification (env : FlowEnv) (s0 : PopupState) (e : DisplayErr)
    (he : env.displayResult = DisplayOutcome.err e)
    (hreach : (startRecordingFlow env s0).displayRequested = true) :
    ((startRecordingFlow env s0).outcome = FlowOutcome.displayCancelled ↔
      silentErrorNames.contains e.name = true) ∧
    (silentErrorNames.contains e.name = true →
      (startRecordingFlow env s0).status = "Ready. Screen sharing was cancelled." ∧
      (startRecordingFlow env s0).warnedDisplayFailure = false) ∧
    (silentErrorNames.contains e.name = false →
      (startRecordingFlow env s0).outcome = FlowOutcome.displayFailed ∧
      (startRecordingFlow env s0).status = "Failed to start display capture: " ++ e.message ∧
      (startRecordingFlow env s0).warnedDisplayFailure = true) := by
  by_cases him : env.includeMic = true
  · cases hmr : env.micResult with
    | some m =>
      simp only [startRecordingFlow, him, eq_self_iff_true, if_true, hmr] at hreach ⊢
      exact flowStep2_err_class env _ false e he
    | none =>
      cases hperm : checkMicPermissionState env.permissionsAvailable env.permQueryResult with
      | none =>
        simp only [startRecordingFlow, him, eq_self_iff_true, if_true, hmr, hperm] at hreach ⊢
        by_cases hcp : env.confirmProceed = true
        · simp only [hcp, Bool.not_true, Bool.false_eq_true, if_false] at hreach ⊢
          exact flowStep2_err_class env _ true e he
        · have hcp' : env.confirmProceed = false := by simpa using hcp
          simp [hcp', baseResult] at hreach
      | some st =>
        cases st with
        | denied =>
          simp [startRecordingFlow, him, hmr, hperm, baseResult] at hreach
        | granted =>
          simp only [startRecordingFlow, him, eq_self_iff_true, if_true, hmr, hperm] at hreach ⊢
          by_cases hcp : env.confirmProceed = true
          · simp only [hcp, Bool.not_true, Bool.false_eq_true, if_false] at hreach ⊢
            exact flowStep2_err_class env _ true e he
          · have hcp' : env.confirmProceed = false := by simpa using hcp
            simp [hcp', baseResult] at hreach
        | prompt =>
          simp only [startRecordingFlow, him, eq_self_iff_true, if_true, hmr, hperm] at hreach ⊢
          by_cases hcp : env.confirmProceed = true
          · simp only [hcp, Bool.not_true, Bool.false_eq_true, if_false] at hreach ⊢
            exact flowStep2_err_class env _ true e he
          · have hcp' : env.confirmProceed = false := by simpa using hcp
            simp [hcp', baseResult] at hreach
  · have him' : env.includeMic = false := by simpa using him
    simp only [startRecordingFlow, him', Bool.false_eq_true, if_false] at hreach ⊢
    exact flowStep2_err_class env _ false e he

/-- C7 witness: an AbortError in the silent set is classified as user
cancellation with the non-alarming status. -/
theorem C7_witness :
    envCancel.displayResult
      = DisplayOutcome.err { name := "AbortError", message := "cancel" } ∧
    (startRecordingFlow envCancel initialState).displayRequested = true ∧
    (startRecordingFlow envCancel initialState).status
      = "Ready. Screen sharing was cancelled." :=
  ⟨rfl, by decide,
   ((C7_display_error_classification envCancel initialState
      { name := "AbortError", message := "cancel" } rfl (by decide)).2.1 (by decide)).1⟩

/-- C8: when the mic is requested, the request fails, and the re-checked
permission state is denied, the flow signals permanent denial: the
remediation UI is shown and the flow stops before any display capture or
mixing stage; the continue-without-mic confirm is shown only when the
re-checked state is not denied. -/
theorem C8_permanent_denial (env : FlowEnv) (s0 : PopupState)
    (him : env.includeMic = true) (hmr : env.micResult = none) :
    (checkMicPermissionState env.permissionsAvailable env.permQueryResult
        = some PermState.denied →
      (startRecordingFlow env s0).outcome = FlowOutcome.micDeniedPermanent ∧
      (startRecordingFlow env s0).micDeniedUIShown = true ∧
      (startRecordingFlow env s0).displayRequested = false ∧
      (startRecordingFlow env s0).mixInvoked = false ∧
      (startRecordingFlow env s0).confirmShown = false) ∧
    ((startRecordingFlow env s0).confirmShown = true →
      checkMicPermissionState env.permissionsAvailable env.permQueryResult
        ≠ some PermState.denied) := by
  constructor
  · intro hd
    simp [startRecordingFlow, him, hmr, hd, baseResult]
  · intro hconf hd
    simp [startRecordingFlow, him, hmr, hd, baseResult] at hconf

/-- C8 witness: mic requested, request failed, permission query reports
denied: the flow ends at permanent denial with no display request. -/
theorem C8_witness :
    checkMicPermissionState envDenied.permissionsAvailable envDenied.permQueryResult
      = some PermState.denied ∧
    (startRecordingFlow envDenied initialState).outcome = FlowOutcome.micDeniedPermanent ∧
    (startRecordingFlow envDenied initialState).micDeniedUIShown = true ∧
    (startRecordingFlow envDenied initialState).displayRequested = false ∧
    (startRecordingFlow envDenied initialState).mixInvoked = false :=
  ⟨rfl,
   ((C8_permanent_denial envDenied initialState rfl rfl).1 rfl).1,
   ((C8_permanent_denial envDenied initialState rfl rfl).1 rfl).2.1,
   ((C8_permanent_denial envDenied initialState rfl rfl).1 rfl).2.2.1,
   ((C8_permanent_denial envDenied initialState rfl rfl).1 rfl).2.2.2.1⟩

/-- C10: when the Permissions API is absent or the permission query throws,
the state check returns null; a mic failure with a null state is treated
as transient — the continue-without-mic confirm is offered, the
permanent-denial remediation UI is not — and the remediation UI is shown
only on an explicit denied state. -/
theorem C10_indeterminate_permission_transient (env : FlowEnv) (s0 : PopupState) :
    ((env.permissionsAvailable = false ∨ env.permQueryResult = none) →
      checkMicPermissionState env.permissionsAvailable env.permQueryResult = none) ∧
    (env.includeMic = true → env.micResult = none →
      checkMicPermissionState env.permissionsAvailable env.permQueryResult = none →
      (startRecordingFlow env s0).confirmShown = true ∧
      (startRecordingFlow env s0).micDeniedUIShown = false) ∧
    ((startRecordingFlow env s0).micDeniedUIShown = true →
      checkMicPermissionState env.permissionsAvailable env.permQueryResult
        = some PermState.denied) := by
  refine ⟨?_, ?_, ?_⟩
  · rintro (h | h)
    · simp [checkMicPermissionState, h]
    · cases hpa : env.permissionsAvailable <;> simp [checkMicPermissionState, h, hpa]
  · intro him hmr hperm
    simp only [startRecordingFlow, him, eq_self_iff_true, if_true, hmr, hperm]
    by_cases hcp : env.confirmProceed = true
    · simp only [hcp, Bool.not_true, Bool.false_eq_true, if_false]
      exact flowStep2_flags env _ true
    · have hcp' : env.confirmProceed = false := by simpa using hcp
      simp [hcp', baseResult]
  · intro hui
    by_cases him : env.includeMic = true
    · cases hmr : env.micResult with
      | some m =>
        simp only [startRecordingFlow, him, eq_self_iff_true, if_true, hmr] at hui
        exact absurd (((flowStep2_flags env _ false).2).symm.trans hui)
          (by simp)
      | none =>
        cases hperm : checkMicPermissionState env.permissionsAvailable env.permQueryResult with
        | none =>
          simp only [startRecordingFlow, him, eq_self_iff_true, if_true, hmr, hperm] at hui
          by_cases hcp : env.confirmProceed = true
          · simp only [hcp, Bool.not_true, Bool.false_eq_true, if_false] at hui
            exact absurd (((flowStep2_flags env _ true).2).symm.trans hui) (by simp)
          · have hcp' : env.confirmProceed = false := by simpa using hcp
            simp [hcp', baseResult] at hui
        | some st =>
          cases st with
          | denied => rfl
          | granted =>
            simp only [startRecordingFlow, him, eq_self_iff_true, if_true, hmr, hperm] at hui
            by_cases hcp : env.confirmProceed = true
            · simp only [hcp, Bool.not_true, Bool.false_eq_true, if_false] at hui
              exact absurd (((flowStep2_flags env _ true).2).symm.trans hui) (by simp)
            · have hcp' : env.confirmProceed = false := by simpa using hcp
              simp [hcp', baseResult] at hui
          | prompt =>
            simp only [startRecordingFlow, him, eq_self_iff_true, if_true, hmr, hperm] at hui
            by_cases hcp : env.confirmProceed = true
            · simp only [hcp, Bool.not_true, Bool.false_eq_true, if_false] at hui
              exact absurd (((flowStep2_flags env _ true).2).symm.trans hui) (by simp)
            · have hcp' : env.confirmProceed = false := by simpa using hcp
              simp [hcp', baseResult] at hui
    · have him' : env.includeMic = false := by simpa using him
      simp only [startRecordingFlow, him', Bool.false_eq_true, if_false] at hui
      exact absurd (((flowStep2_flags env _ false).2).symm.trans hui) (by simp)

/-- C10 witness: mic requested and failed with the Permissions API absent:
the state check returns null, the confirm is offered, and the
remediation UI is not shown. -/
theorem C10_witness :
    checkMicPermissionState envNoPermApi.permissionsAvailable
      envNoPermApi.permQueryResult = none ∧
    (startRecordingFlow envNoPermApi initialState).confirmShown = true ∧
    (startRecordingFlow envNoPermApi initialState).micDeniedUIShown = false :=
  ⟨(C10_indeterminate_permission_transient envNoPermApi initialState).1 (Or.inl rfl),
   ((C10_indeterminate_permission_transient envNoPermApi initialState).2.1 rfl rfl
     ((C10_indeterminate_permission_transient envNoPermApi initialState).1 (Or.inl rfl))).1,
   ((C10_indeterminate_permission_transient envNoPermApi initialState).2.1 rfl rfl
     ((C10_indeterminate_permission_transient envNoPermApi initialState).1 (Or.inl rfl))).2⟩

/-- C9 counterexample: the claim's final clause — encoder construction
failure is "reported as a failure with teardown" — is false: on a run
where the mixer allocated an audio context and the recorder constructor
then throws, the flow reports the failure but leaves the mixing context
open, the poll interval active, and the display and combined stream
references set, rather than tearing everything down. -/
theorem C9_counterexample :
    (startRecordingFlow envCtorFail initialState).outcome
      = FlowOutcome.recorderCtorFailed ∧
    (startRecordingFlow envCtorFail initialState).state.openContexts = [freshCtxId] ∧
    (startRecordingFlow envCtorFail initialState).state.activeIntervals = [freshPollId] ∧
    (startRecordingFlow envCtorFail initialState).state.displayStream ≠ none ∧
    (startRecordingFlow envCtorFail initialState).state.combinedStream ≠ none := by
  decide

/-- C9 amended: format negotiation picks the first identifier of the ordered
preference list that the platform reports as supported, and when none is
supported the recorder is constructed with the default configuration
rather than failing outright; when encoder construction itself fails
after negotiation, the failure is reported and every acquired track is
stopped — but the mixing context, poll interval, and stream references
are not released on this path. -/
theorem C9_amended_format_negotiation (env : FlowEnv) (s0 : PopupState)
    (h0 : resourceFree s0)
    (hat : (startRecordingFlow env s0).recorderCtorAttempted = true) :
    (startRecordingFlow env s0).negotiatedMime
      = ((candidates.find? env.isTypeSupported).getD "") ∧
    ((∀ c ∈ candidates, env.isTypeSupported c = false) →
      (startRecordingFlow env s0).usedDefaultRecorderConfig = true) ∧
    (env.recorderCtorOk = true → env.recorderStartOk = true →
      (startRecordingFlow env s0).outcome = FlowOutcome.recording) ∧
    (env.recorderCtorOk = false →
      (startRecordingFlow env s0).outcome = FlowOutcome.recorderCtorFailed ∧
      (startRecordingFlow env s0).status
        = "Recording failed: " ++ env.recorderCtorErrMessage ∧
      (startRecordingFlow env s0).state.liveTracks = []) := by
  obtain ⟨hcs, hds, hms, hoc, hai, hlt⟩ := h0
  have hstep2 : ∀ (s' : PopupState) (cs : Bool),
      (∀ x ∈ s'.liveTracks, x ∈ optTrackIds s'.micStream) →
      (flowStep2 env s' cs).recorderCtorAttempted = true →
      (flowStep2 env s' cs).negotiatedMime
        = ((candidates.find? env.isTypeSupported).getD "") ∧
      ((∀ c ∈ candidates, env.isTypeSupported c = false) →
        (flowStep2 env s' cs).usedDefaultRecorderConfig = true) ∧
      (env.recorderCtorOk = true → env.recorderStartOk = true →
        (flowStep2 env s' cs).outcome = FlowOutcome.recording) ∧
      (env.recorderCtorOk = false →
        (flowStep2 env s' cs).outcome = FlowOutcome.recorderCtorFailed ∧
        (flowStep2 env s' cs).status
          = "Recording failed: " ++ env.recorderCtorErrMessage ∧
        (flowStep2 env s' cs).state.liveTracks = []) := by
    intro s' cs hl hat2
    cases hdr : env.displayResult with
    | err e => simp [flowStep2, hdr, baseResult] at hat2
    | ok d =>
      simp only [flowStep2, hdr] at hat2 ⊢
      refine flowStep3_props env _ _ cs rfl ?_ hat2
      intro x hx
      rcases List.mem_append.mp hx with h1 | h1
      · exact Or.inr (hl x h1)
      · exact Or.inl h1
  by_cases him : env.includeMic = true
  · cases hmr : env.micResult with
    | some m =>
      simp only [startRecordingFlow, him, eq_self_iff_true, if_true, hmr] at hat ⊢
      exact hstep2 _ false (by simp [hlt, optTrackIds]) hat
    | none =>
      cases hperm : checkMicPermissionState env.permissionsAvailable env.permQueryResult with
      | none =>
        simp only [startRecordingFlow, him, eq_self_iff_true, if_true, hmr, hperm] at hat ⊢
        by_cases hcp : env.confirmProceed = true
        · simp only [hcp, Bool.not_true, Bool.false_eq_true, if_false] at hat ⊢
          exact hstep2 _ true (by simp [hlt, optTrackIds]) hat
        · have hcp' : env.confirmProceed = false := by simpa using hcp
          simp [hcp', baseResult] at hat
      | some st =>
        cases st with
        | denied =>
          simp [startRecordingFlow, him, hmr, hperm, baseResult] at hat
        | granted =>
          simp only [startRecordingFlow, him, eq_self_iff_true, if_true, hmr, hperm] at hat ⊢
          by_cases hcp : env.confirmProceed = true
          · simp only [hcp, Bool.not_true, Bool.false_eq_true, if_false] at hat ⊢
            exact hstep2 _ true (by simp [hlt, optTrackIds]) hat
          · have hcp' : env.confirmProceed = false := by simpa using hcp
            simp [hcp', baseResult] at hat
        | prompt =>
          simp only [startRecordingFlow, him, eq_self_iff_true, if_true, hmr, hperm] at hat ⊢
          by_cases hcp : env.confirmProceed = true
          · simp only [hcp, Bool.not_true, Bool.false_eq_true, if_false] at hat ⊢
            exact hstep2 _ true (by simp [hlt, optTrackIds]) hat
          · have hcp' : env.confirmProceed = false := by simpa using hcp
            simp [hcp', baseResult] at hat
  · have him' : env.includeMic = false := by simpa using him
    simp only [startRecordingFlow, him', Bool.false_eq_true, if_false] at hat ⊢
    exact hstep2 _ false (by simp [hlt, optTrackIds]) hat

/-- C9 witness: with no supported format and a throwing constructor, the
negotiated format is empty (default configuration), the failure is
reported and all tracks are stopped. -/
theorem C9_witness :
    (startRecordingFlow envCtorFail initialState).recorderCtorAttempted = true ∧
    (startRecordingFlow envCtorFail initialState).negotiatedMime
      = ((candidates.find? envCtorFail.isTypeSupported).getD "") ∧
    (startRecordingFlow envCtorFail initialState).usedDefaultRecorderConfig = true ∧
    (startRecordingFlow envCtorFail initialState).state.liveTracks = [] :=
  ⟨by decide,
   (C9_amended_format_negotiation envCtorFail initialState
     ⟨rfl, rfl, rfl, rfl, rfl, rfl⟩ (by decide)).1,
   (C9_amended_format_negotiation envCtorFail initialState
     ⟨rfl, rfl, rfl, rfl, rfl, rfl⟩ (by decide)).2.1 (fun c _ => rfl),
   ((C9_amended_format_negotiation envCtorFail initialState
     ⟨rfl, rfl, rfl, rfl, rfl, rfl⟩ (by decide)).2.2.2 rfl).2.2⟩

/-- C3 witness: both detection mechanisms fire, in both orders; exactly one
stop-and-finalize results. -/
theorem C3_witness :
    ([DetectEvent.endedEvent, DetectEvent.pollTick] ≠ ([] : List DetectEvent)) ∧
    (runDetect monInit [DetectEvent.endedEvent, DetectEvent.pollTick]).stopFinalizeCount = 1 ∧
    (runDetect monInit [DetectEvent.pollTick, DetectEvent.endedEvent]).stopFinalizeCount = 1 :=
  ⟨by decide,
   C3_single_stop_finalize [DetectEvent.endedEvent, DetectEvent.pollTick] (by decide),
   C3_single_stop_finalize [DetectEvent.pollTick, DetectEvent.endedEvent] (by decide)⟩

end ScreenRecorder
